import Mathlib

/-!
# Verification of the flag/handle layer of `rat-focus`

Shallow embedding of `src/lib.rs`: the shared tri-state record
`FocusFlagCore`, the two reference-counted handle types `FocusFlag` and
`ContainerFlag`, the `Navigation` enum, and the default method bodies of
the capability traits `HasFocusFlag` and `HasFocus`.

Modelling decisions:
* A Rust `Arc<FocusFlagCore>` shares one heap cell between all of its
  clones, and handle equality is `Arc::ptr_eq`.  We model the heap
  explicitly: `Heap` maps allocation ids to `FocusFlagCore` records and
  carries the next fresh id; a handle is just the id of its cell, and
  `Arc::ptr_eq` becomes equality of ids.  Allocation (`Arc::new`) hands
  out `nextId` and bumps it, so separately constructed flags always get
  distinct ids.
* Each of the three booleans sits behind its own `RwLock<bool>`.  In the
  sequential semantics a lock-guarded read is a pure field read and a
  lock-guarded write is a field update; crucially, `clear` performs three
  *separate* lock-guarded writes in sequence (focus, lost, gained), which
  we keep as three separate single-field updates so that the state between
  two of the writes is expressible.
* Rust methods taking `&self` and mutating through the lock become state
  transformers `Heap → Heap`; read-only methods become pure functions of
  the heap.
-/

namespace RatFocus

/-- The shared record behind one flag
(`struct FocusFlagCore` in `src/lib.rs`): a debug `name` and the three
booleans `focus`, `gained`, `lost` (each behind its own `RwLock<bool>`,
here flattened to the stored value). -/
structure FocusFlagCore where
  name : String
  focus : Bool
  gained : Bool
  lost : Bool
deriving DecidableEq, Repr

/-- `#[derive(Default)]` on `FocusFlagCore`: empty name, all three
booleans false (`Box<str>::default()` is the empty string and
`RwLock<bool>::default()` holds `false`). -/
def FocusFlagCore.default : FocusFlagCore :=
  { name := "", focus := false, gained := false, lost := false }

/-- `FocusFlagCore::named` (`src/lib.rs` 356-365): the given name, all
three booleans freshly false. -/
def FocusFlagCore.named (name : String) : FocusFlagCore :=
  { name := name, focus := false, gained := false, lost := false }

/-- The store of allocated `FocusFlagCore` cells: `cores i` is the record
in cell `i`, and `nextId` is the id the next `Arc::new` hands out.  Ids of
live handles are always below `nextId`. -/
@[ext]
structure Heap where
  nextId : Nat
  cores : Nat → FocusFlagCore

/-- The record stored in cell `i`. -/
def Heap.core (h : Heap) (i : Nat) : FocusFlagCore :=
  h.cores i

/-- Overwrite cell `i` with record `c`, leaving every other cell alone. -/
def Heap.write (h : Heap) (i : Nat) (c : FocusFlagCore) : Heap :=
  { h with cores := fun j => if j = i then c else h.cores j }

/-- `Arc::new(c)`: put `c` into the fresh cell `nextId` and return that
id together with the grown heap. -/
def Heap.alloc (h : Heap) (c : FocusFlagCore) : Nat × Heap :=
  (h.nextId, { nextId := h.nextId + 1,
               cores := fun j => if j = h.nextId then c else h.cores j })

/-- An empty heap to base concrete executions on. -/
def Heap.empty : Heap :=
  { nextId := 0, cores := fun _ => FocusFlagCore.default }

/-- `pub struct FocusFlag(Arc<FocusFlagCore>)`: the handle is the id of
its shared cell. -/
structure FocusFlag where
  id : Nat
deriving DecidableEq, Repr

/-- `pub struct ContainerFlag(Arc<FocusFlagCore>)`: same shape as
`FocusFlag` but a distinct type, as in the source. -/
structure ContainerFlag where
  id : Nat
deriving DecidableEq, Repr

/-- `impl PartialEq for FocusFlag` (`src/lib.rs` 55-59):
`Arc::ptr_eq(&self.0, &other.0)` — the handles compare equal iff they
point at the same cell. -/
def FocusFlag.beq (f g : FocusFlag) : Bool :=
  f.id == g.id

/-- `#[derive(Clone)]` on `FocusFlag`: cloning an `Arc` yields a new
handle to the *same* cell. -/
def FocusFlag.clone (f : FocusFlag) : FocusFlag :=
  { id := f.id }

/-- `FocusFlag::new` (`src/lib.rs` 239-241): `Self::default()`, i.e. a
fresh `Arc` around a default core. -/
def FocusFlag.new (h : Heap) : FocusFlag × Heap :=
  let p := h.alloc FocusFlagCore.default
  ({ id := p.1 }, p.2)

/-- `FocusFlag::named` (`src/lib.rs` 244-246):
`Self(Arc::new(FocusFlagCore::named(name)))`. -/
def FocusFlag.named (name : String) (h : Heap) : FocusFlag × Heap :=
  let p := h.alloc (FocusFlagCore.named name)
  ({ id := p.1 }, p.2)

/-- `FocusFlag::get` (`src/lib.rs` 250-252): read the `focus` lock. -/
def FocusFlag.get (f : FocusFlag) (h : Heap) : Bool :=
  (h.core f.id).focus

/-- `FocusFlag::set` (`src/lib.rs` 256-258): write the `focus` lock. -/
def FocusFlag.set (f : FocusFlag) (focus : Bool) (h : Heap) : Heap :=
  h.write f.id { h.core f.id with focus := focus }

/-- `FocusFlag::name` (`src/lib.rs` 262-264): the debug name. -/
def FocusFlag.name (f : FocusFlag) (h : Heap) : String :=
  (h.core f.id).name

/-- `FocusFlag::lost` (`src/lib.rs` 268-270): read the `lost` lock. -/
def FocusFlag.lost (f : FocusFlag) (h : Heap) : Bool :=
  (h.core f.id).lost

/-- `FocusFlag::set_lost` (`src/lib.rs` 273-275): write the `lost`
lock. -/
def FocusFlag.set_lost (f : FocusFlag) (lost : Bool) (h : Heap) : Heap :=
  h.write f.id { h.core f.id with lost := lost }

/-- `FocusFlag::gained` (`src/lib.rs` 279-281): read the `gained`
lock. -/
def FocusFlag.gained (f : FocusFlag) (h : Heap) : Bool :=
  (h.core f.id).gained

/-- `FocusFlag::set_gained` (`src/lib.rs` 284-286): write the `gained`
lock. -/
def FocusFlag.set_gained (f : FocusFlag) (gained : Bool) (h : Heap) : Heap :=
  h.write f.id { h.core f.id with gained := gained }

/-- `FocusFlag::clear` (`src/lib.rs` 290-294): three separate lock-guarded
writes in source order — `focus`, then `lost`, then `gained`, each to
`false`.  Kept as the composition of the three single-field writes. -/
def FocusFlag.clear (f : FocusFlag) (h : Heap) : Heap :=
  f.set_gained false (f.set_lost false (f.set false h))

/-- `impl PartialEq for ContainerFlag` (`src/lib.rs` 71-75):
`Arc::ptr_eq`. -/
def ContainerFlag.beq (f g : ContainerFlag) : Bool :=
  f.id == g.id

/-- `#[derive(Clone)]` on `ContainerFlag`: a new handle to the same
cell. -/
def ContainerFlag.clone (f : ContainerFlag) : ContainerFlag :=
  { id := f.id }

/-- `ContainerFlag::new` (`src/lib.rs` 299-301): `Self::default()`. -/
def ContainerFlag.new (h : Heap) : ContainerFlag × Heap :=
  let p := h.alloc FocusFlagCore.default
  ({ id := p.1 }, p.2)

/-- `ContainerFlag::named` (`src/lib.rs` 304-306). -/
def ContainerFlag.named (name : String) (h : Heap) : ContainerFlag × Heap :=
  let p := h.alloc (FocusFlagCore.named name)
  ({ id := p.1 }, p.2)

/-- `ContainerFlag::get` (`src/lib.rs` 310-312). -/
def ContainerFlag.get (f : ContainerFlag) (h : Heap) : Bool :=
  (h.core f.id).focus

/-- `ContainerFlag::set` (`src/lib.rs` 316-318). -/
def ContainerFlag.set (f : ContainerFlag) (focus : Bool) (h : Heap) : Heap :=
  h.write f.id { h.core f.id with focus := focus }

/-- `ContainerFlag::name` (`src/lib.rs` 322-324). -/
def ContainerFlag.name (f : ContainerFlag) (h : Heap) : String :=
  (h.core f.id).name

/-- `ContainerFlag::lost` (`src/lib.rs` 328-330). -/
def ContainerFlag.lost (f : ContainerFlag) (h : Heap) : Bool :=
  (h.core f.id).lost

/-- `ContainerFlag::set_lost` (`src/lib.rs` 333-335). -/
def ContainerFlag.set_lost (f : ContainerFlag) (lost : Bool) (h : Heap) : Heap :=
  h.write f.id { h.core f.id with lost := lost }

/-- `ContainerFlag::gained` (`src/lib.rs` 339-341). -/
def ContainerFlag.gained (f : ContainerFlag) (h : Heap) : Bool :=
  (h.core f.id).gained

/-- `ContainerFlag::set_gained` (`src/lib.rs` 344-346). -/
def ContainerFlag.set_gained (f : ContainerFlag) (gained : Bool) (h : Heap) :
    Heap :=
  h.write f.id { h.core f.id with gained := gained }

/-- `ContainerFlag::clear` (`src/lib.rs` 350-353): the same three writes
in the same order `focus`, `lost`, `gained`. -/
def ContainerFlag.clear (f : ContainerFlag) (h : Heap) : Heap :=
  f.set_gained false (f.set_lost false (f.set false h))

/-- `pub enum Navigation` (`src/lib.rs` 107-128), exhaustive: `None`,
`Mouse`, `Leave`, `Reach`, `ReachLeaveFront`, `ReachLeaveBack`,
`Regular`. -/
inductive Navigation where
  | None
  | Mouse
  | Leave
  | Reach
  | ReachLeaveFront
  | ReachLeaveBack
  | Regular
deriving DecidableEq, Repr

/-- `#[default]` sits on the `Regular` variant (`src/lib.rs` 126). -/
def Navigation.default : Navigation :=
  Navigation.Regular

/-- `ratatui::layout::Rect`, external to the crate: an axis-aligned
rectangle with `u16` position and size, used here only as a carrier
type for areas. -/
structure Rect where
  x : Nat
  y : Nat
  width : Nat
  height : Nat
deriving DecidableEq, Repr

/-- Modelled from the spec: `ZRect`, declared in `src/zrect.rs` which is
not under `src/` — per the spec a region descriptor is "a rectangle
tagged with a z-priority".  Used here only as a carrier type for the
`z_areas` default. -/
structure ZRect where
  z : Nat
  rect : Rect
deriving DecidableEq, Repr

/-- An implementation of `trait HasFocusFlag` (`src/lib.rs` 131-170) that
keeps the default method bodies: the two required methods `focus` and
`area` are record fields, the defaulted `z_areas` and `navigable` are
fields with the trait's default bodies as default values, and
`is_focused` / `lost_focus` / `gained_focus` are the definitions
below. -/
structure HasFocusFlagImpl where
  focus : FocusFlag
  area : Rect
  z_areas : List ZRect := []
  navigable : Navigation := Navigation.Regular

/-- Default body of `HasFocusFlag::is_focused` (`src/lib.rs` 157-159):
`self.focus().get()`. -/
def HasFocusFlagImpl.is_focused (w : HasFocusFlagImpl) (h : Heap) : Bool :=
  w.focus.get h

/-- Default body of `HasFocusFlag::lost_focus` (`src/lib.rs` 162-164):
`self.focus().lost()`. -/
def HasFocusFlagImpl.lost_focus (w : HasFocusFlagImpl) (h : Heap) : Bool :=
  w.focus.lost h

/-- Default body of `HasFocusFlag::gained_focus` (`src/lib.rs` 167-169):
`self.focus().gained()`. -/
def HasFocusFlagImpl.gained_focus (w : HasFocusFlagImpl) (h : Heap) : Bool :=
  w.focus.gained h

/-- An implementation of the container trait `HasFocus`
(`src/lib.rs` 173-213) with the default bodies of the three queries.
The `container` method (whose own default delegates to the `Focus`
registry, `src/focus.rs`, not under `src/`) is modelled as a field
holding its result: an optional container handle. -/
structure HasFocusImpl where
  container : Option ContainerFlag
  area : Rect

/-- Default body of `HasFocus::is_focused` (`src/lib.rs` 188-194):
`if let Some(flag) = self.container() { flag.get() } else { false }`. -/
def HasFocusImpl.is_focused (w : HasFocusImpl) (h : Heap) : Bool :=
  match w.container with
  | some flag => flag.get h
  | none => false

/-- Default body of `HasFocus::lost_focus` (`src/lib.rs` 197-203). -/
def HasFocusImpl.lost_focus (w : HasFocusImpl) (h : Heap) : Bool :=
  match w.container with
  | some flag => flag.lost h
  | none => false

/-- Default body of `HasFocus::gained_focus` (`src/lib.rs` 206-212). -/
def HasFocusImpl.gained_focus (w : HasFocusImpl) (h : Heap) : Bool :=
  match w.container with
  | some flag => flag.gained h
  | none => false

/-! ## Helper lemmas -/

/-- Reading a cell after a write: the written record at the written id,
the old record everywhere else. -/
theorem Heap.core_write (h : Heap) (i j : Nat) (c : FocusFlagCore) :
    (h.write i c).core j = if j = i then c else h.core j := by
  simp [Heap.write, Heap.core]

/-- Two writes to the same cell collapse to the second. -/
theorem Heap.write_write (h : Heap) (i : Nat) (c₁ c₂ : FocusFlagCore) :
    (h.write i c₁).write i c₂ = h.write i c₂ := by
  ext j
  · rfl
  · simp only [Heap.write]
    by_cases hj : j = i <;> simp [hj]

/-- `clear` as a single record update: name preserved, the three booleans
false. -/
theorem FocusFlag.clear_eq (f : FocusFlag) (h : Heap) :
    f.clear h =
      h.write f.id
        { h.core f.id with focus := false, gained := false, lost := false } := by
  simp [FocusFlag.clear, FocusFlag.set, FocusFlag.set_lost,
    FocusFlag.set_gained, Heap.core_write, Heap.write_write]

/-! ## Claim theorems -/

/-- C2: for every `FocusFlag` `f` and heap, after `f.clear` the three
observations `get`, `gained` and `lost` are all false, and `clear` is
idempotent: clearing twice yields exactly the heap of clearing once. -/
theorem clear_resets_and_is_idempotent (f : FocusFlag) (h : Heap) :
    f.get (f.clear h) = false ∧
    f.gained (f.clear h) = false ∧
    f.lost (f.clear h) = false ∧
    f.clear (f.clear h) = f.clear h := by
  refine ⟨?_, ?_, ?_, ?_⟩ <;>
    simp [FocusFlag.clear_eq, FocusFlag.get, FocusFlag.gained,
      FocusFlag.lost, Heap.core_write, Heap.write_write]

/-- C4: frame effect of the single-field setters — `set b` rewrites only
the `focus` field of the flag's own cell (keeping `name`, `gained`,
`lost`), `set_gained b` only the `gained` field, `set_lost b` only the
`lost` field, and every cell other than the flag's own is left completely
untouched by all three. -/
theorem setters_frame_effect (f : FocusFlag) (h : Heap) (b : Bool) (j : Nat) :
    (f.set b h).core j =
      (if j = f.id then { h.core f.id with focus := b } else h.core j) ∧
    (f.set_gained b h).core j =
      (if j = f.id then { h.core f.id with gained := b } else h.core j) ∧
    (f.set_lost b h).core j =
      (if j = f.id then { h.core f.id with lost := b } else h.core j) := by
  refine ⟨?_, ?_, ?_⟩ <;>
    simp [FocusFlag.set, FocusFlag.set_gained, FocusFlag.set_lost,
      Heap.core_write]

/-- C5: `ContainerFlag` and `FocusFlag` are identical in mechanics — on
the same underlying cell `i`, every operation of the common contract
(`new`, `named`, `get`, `set`, `name`, `lost`, `set_lost`, `gained`,
`set_gained`, `clear`, equality) computes the same result and the same
heap as the `FocusFlag` implementation. -/
theorem container_flag_same_mechanics
    (i j : Nat) (h : Heap) (b : Bool) (n : String) :
    (ContainerFlag.new h).1.id = (FocusFlag.new h).1.id ∧
    (ContainerFlag.new h).2 = (FocusFlag.new h).2 ∧
    (ContainerFlag.named n h).1.id = (FocusFlag.named n h).1.id ∧
    (ContainerFlag.named n h).2 = (FocusFlag.named n h).2 ∧
    ContainerFlag.get ⟨i⟩ h = FocusFlag.get ⟨i⟩ h ∧
    ContainerFlag.set ⟨i⟩ b h = FocusFlag.set ⟨i⟩ b h ∧
    ContainerFlag.name ⟨i⟩ h = FocusFlag.name ⟨i⟩ h ∧
    ContainerFlag.lost ⟨i⟩ h = FocusFlag.lost ⟨i⟩ h ∧
    ContainerFlag.set_lost ⟨i⟩ b h = FocusFlag.set_lost ⟨i⟩ b h ∧
    ContainerFlag.gained ⟨i⟩ h = FocusFlag.gained ⟨i⟩ h ∧
    ContainerFlag.set_gained ⟨i⟩ b h = FocusFlag.set_gained ⟨i⟩ b h ∧
    ContainerFlag.clear ⟨i⟩ h = FocusFlag.clear ⟨i⟩ h ∧
    ContainerFlag.beq ⟨i⟩ ⟨j⟩ = FocusFlag.beq ⟨i⟩ ⟨j⟩ :=
  ⟨rfl, rfl, rfl, rfl, rfl, rfl, rfl, rfl, rfl, rfl, rfl, rfl, rfl⟩

/-- C6: the derived leaf queries with the default trait bodies merely
read the flag — `is_focused` returns exactly `focus().get()`,
`lost_focus` exactly `focus().lost()`, `gained_focus` exactly
`focus().gained()`, each a pure read of the flag's own cell (the queries
are functions of the heap and perform no write). -/
theorem leaf_queries_read_flag (w : HasFocusFlagImpl) (h : Heap) :
    w.is_focused h = w.focus.get h ∧
    w.lost_focus h = w.focus.lost h ∧
    w.gained_focus h = w.focus.gained h ∧
    w.is_focused h = (h.core w.focus.id).focus ∧
    w.lost_focus h = (h.core w.focus.id).lost ∧
    w.gained_focus h = (h.core w.focus.id).gained :=
  ⟨rfl, rfl, rfl, rfl, rfl, rfl⟩

/-- C7: a `HasFocusFlag` implementation that keeps the defaults has
`z_areas = []` and `navigable = Regular`; `Regular` is the `Default`
value of `Navigation`, and the variants of `Navigation` are exactly
`None`, `Mouse`, `Leave`, `Reach`, `ReachLeaveFront`, `ReachLeaveBack`,
`Regular`. -/
theorem capability_trait_defaults (f : FocusFlag) (a : Rect)
    (nav : Navigation) :
    ({ focus := f, area := a } : HasFocusFlagImpl).z_areas = [] ∧
    ({ focus := f, area := a } : HasFocusFlagImpl).navigable =
      Navigation.Regular ∧
    Navigation.default = Navigation.Regular ∧
    (nav = Navigation.None ∨ nav = Navigation.Mouse ∨
     nav = Navigation.Leave ∨ nav = Navigation.Reach ∨
     nav = Navigation.ReachLeaveFront ∨ nav = Navigation.ReachLeaveBack ∨
     nav = Navigation.Regular) := by
  refine ⟨rfl, rfl, rfl, ?_⟩
  cases nav <;> simp

/-- C9: the default container queries are total at the no-container edge
case — when `container()` yields `none`, `is_focused`, `lost_focus` and
`gained_focus` all return `false` on every heap. -/
theorem container_queries_total_without_container (a : Rect) (h : Heap) :
    HasFocusImpl.is_focused ⟨none, a⟩ h = false ∧
    HasFocusImpl.lost_focus ⟨none, a⟩ h = false ∧
    HasFocusImpl.gained_focus ⟨none, a⟩ h = false :=
  ⟨rfl, rfl, rfl⟩

/-- C1: handle equality is identity-based — two `FocusFlag` (resp.
`ContainerFlag`) handles compare equal iff they reference the same cell;
a clone of a handle is equal to the original; and two separately
constructed flags are unequal even when created with the same name,
although both carry that name (equality is never name- or value-based). -/
theorem handle_equality_is_identity (f g : FocusFlag)
    (cf cg : ContainerFlag) (h : Heap) (n : String) :
    (FocusFlag.beq f g = true ↔ f.id = g.id) ∧
    (ContainerFlag.beq cf cg = true ↔ cf.id = cg.id) ∧
    FocusFlag.beq f.clone f = true ∧
    ContainerFlag.beq cf.clone cf = true ∧
    FocusFlag.beq (FocusFlag.named n h).1
      (FocusFlag.named n (FocusFlag.named n h).2).1 = false ∧
    ContainerFlag.beq (ContainerFlag.named n h).1
      (ContainerFlag.named n (ContainerFlag.named n h).2).1 = false ∧
    (FocusFlag.named n h).1.name
      (FocusFlag.named n (FocusFlag.named n h).2).2 = n ∧
    (FocusFlag.named n (FocusFlag.named n h).2).1.name
      (FocusFlag.named n (FocusFlag.named n h).2).2 = n := by
  refine ⟨?_, ?_, ?_, ?_, ?_, ?_, ?_, ?_⟩ <;>
    simp [FocusFlag.beq, ContainerFlag.beq, FocusFlag.clone,
      ContainerFlag.clone, FocusFlag.named, ContainerFlag.named,
      FocusFlag.name, Heap.alloc, Heap.core, FocusFlagCore.named]

/-- C10: every freshly constructed flag starts with
`focused = gained = lost = false`; `named n` carries exactly the name
`n`, while `new` (which is `Self::default()` in the source, so this also
covers the `Default` construction) carries the empty name — for both
`FocusFlag` and `ContainerFlag`, and the default core record itself. -/
theorem fresh_flag_initial_state (h : Heap) (n : String) :
    ((FocusFlag.new h).1.get (FocusFlag.new h).2 = false ∧
     (FocusFlag.new h).1.gained (FocusFlag.new h).2 = false ∧
     (FocusFlag.new h).1.lost (FocusFlag.new h).2 = false ∧
     (FocusFlag.new h).1.name (FocusFlag.new h).2 = "") ∧
    ((FocusFlag.named n h).1.get (FocusFlag.named n h).2 = false ∧
     (FocusFlag.named n h).1.gained (FocusFlag.named n h).2 = false ∧
     (FocusFlag.named n h).1.lost (FocusFlag.named n h).2 = false ∧
     (FocusFlag.named n h).1.name (FocusFlag.named n h).2 = n) ∧
    ((ContainerFlag.new h).1.get (ContainerFlag.new h).2 = false ∧
     (ContainerFlag.new h).1.gained (ContainerFlag.new h).2 = false ∧
     (ContainerFlag.new h).1.lost (ContainerFlag.new h).2 = false ∧
     (ContainerFlag.new h).1.name (ContainerFlag.new h).2 = "") ∧
    ((ContainerFlag.named n h).1.get (ContainerFlag.named n h).2 = false ∧
     (ContainerFlag.named n h).1.gained (ContainerFlag.named n h).2 = false ∧
     (ContainerFlag.named n h).1.lost (ContainerFlag.named n h).2 = false ∧
     (ContainerFlag.named n h).1.name (ContainerFlag.named n h).2 = n) ∧
    (FocusFlagCore.default.focus = false ∧
     FocusFlagCore.default.gained = false ∧
     FocusFlagCore.default.lost = false ∧
     FocusFlagCore.default.name = "") := by
  simp [FocusFlag.new, FocusFlag.named, ContainerFlag.new,
    ContainerFlag.named, FocusFlag.get, FocusFlag.gained, FocusFlag.lost,
    FocusFlag.name, ContainerFlag.get, ContainerFlag.gained,
    ContainerFlag.lost, ContainerFlag.name, Heap.alloc, Heap.core,
    FocusFlagCore.default, FocusFlagCore.named]

/-- C3 counterexample: the public flag operations do *not* maintain the
claimed invariant.  `set_gained` and `set_lost` are raw single-field
setters: starting from a freshly constructed flag (never focused, so no
transition ever happened), calling `set_gained true` and then
`set_lost true` yields a flag with `gained` and `lost` simultaneously
true — refuting both the "never simultaneously true" part and the
"gained implies was unfocused before and focused now" part (the flag is
unfocused and gained anyway). -/
theorem flag_setters_break_claimed_invariant :
    FocusFlag.gained ⟨0⟩
      (FocusFlag.set_lost ⟨0⟩ true
        (FocusFlag.set_gained ⟨0⟩ true (FocusFlag.new Heap.empty).2)) = true ∧
    FocusFlag.lost ⟨0⟩
      (FocusFlag.set_lost ⟨0⟩ true
        (FocusFlag.set_gained ⟨0⟩ true (FocusFlag.new Heap.empty).2)) = true ∧
    FocusFlag.get ⟨0⟩
      (FocusFlag.set_lost ⟨0⟩ true
        (FocusFlag.set_gained ⟨0⟩ true (FocusFlag.new Heap.empty).2)) = false ∧
    (FocusFlag.new Heap.empty).1 = (⟨0⟩ : FocusFlag) := by
  refine ⟨?_, ?_, ?_, rfl⟩ <;> rfl

/-- C3 amended: the gained/lost discipline is not enforced by the flag
operations themselves — `set_gained b` and `set_lost b` write exactly
`b` into their field regardless of focus history.  What the flag layer
does guarantee is the invariant at the states it establishes itself:
in a freshly constructed flag and after `clear`, `gained` and `lost`
are both false (so never simultaneously true there); preserving the
invariant across transitions is left to the focus-transfer pass. -/
theorem setters_raw_invariant_only_at_reset
    (f : FocusFlag) (h : Heap) (b : Bool) (n : String) :
    f.gained (f.set_gained b h) = b ∧
    f.lost (f.set_lost b h) = b ∧
    f.gained (f.clear h) = false ∧
    f.lost (f.clear h) = false ∧
    (FocusFlag.named n h).1.gained (FocusFlag.named n h).2 = false ∧
    (FocusFlag.named n h).1.lost (FocusFlag.named n h).2 = false := by
  refine ⟨?_, ?_, ?_, ?_, ?_, ?_⟩ <;>
    simp [FocusFlag.gained, FocusFlag.lost, FocusFlag.set_gained,
      FocusFlag.set_lost, FocusFlag.clear_eq, FocusFlag.named, Heap.alloc,
      Heap.write, Heap.core, FocusFlagCore.named]

/-- C8 counterexample: `clear` is not one atomic reset.  In the source it
is three *separate* lock-guarded writes (`focus`, then `lost`, then
`gained`), each releasing its per-field lock before the next is taken, so
the state after the first write alone is observable by a reader of the
same cell.  Concretely: starting from a focused flag that also has
`lost = true`, after `clear`'s first write the flag already reads
`focused = false` while `lost` still reads `true` — exactly the torn
intermediate state the claim rules out.  The last conjunct pins `clear`
to that three-write sequence. -/
theorem clear_torn_intermediate_state :
    FocusFlag.get ⟨0⟩
      (FocusFlag.set ⟨0⟩ false
        (FocusFlag.set_lost ⟨0⟩ true
          (FocusFlag.set ⟨0⟩ true (FocusFlag.new Heap.empty).2))) = false ∧
    FocusFlag.lost ⟨0⟩
      (FocusFlag.set ⟨0⟩ false
        (FocusFlag.set_lost ⟨0⟩ true
          (FocusFlag.set ⟨0⟩ true (FocusFlag.new Heap.empty).2))) = true ∧
    FocusFlag.get ⟨0⟩
      (FocusFlag.set_lost ⟨0⟩ true
        (FocusFlag.set ⟨0⟩ true (FocusFlag.new Heap.empty).2)) = true ∧
    (FocusFlag.new Heap.empty).1 = (⟨0⟩ : FocusFlag) ∧
    FocusFlag.clear ⟨0⟩
        (FocusFlag.set_lost ⟨0⟩ true
          (FocusFlag.set ⟨0⟩ true (FocusFlag.new Heap.empty).2)) =
      FocusFlag.set_gained ⟨0⟩ false
        (FocusFlag.set_lost ⟨0⟩ false
          (FocusFlag.set ⟨0⟩ false
            (FocusFlag.set_lost ⟨0⟩ true
              (FocusFlag.set ⟨0⟩ true (FocusFlag.new Heap.empty).2)))) := by
  refine ⟨?_, ?_, ?_, rfl, rfl⟩ <;> rfl

/-- C8 amended: `clear` resets all three booleans to false, but not
atomically as a whole — it performs three separate per-field lock-guarded
writes in the order `focus`, `lost`, `gained`.  After all three writes
every boolean is false; between the writes, the fields not yet written
still hold their previous values, so a partially cleared state exists
(after the first write, `lost` and `gained` are unchanged; after the
second, `gained` is unchanged). -/
theorem clear_is_three_sequential_writes (f : FocusFlag) (h : Heap) :
    f.clear h = f.set_gained false (f.set_lost false (f.set false h)) ∧
    f.get (f.clear h) = false ∧
    f.lost (f.clear h) = false ∧
    f.gained (f.clear h) = false ∧
    f.lost (f.set false h) = f.lost h ∧
    f.gained (f.set false h) = f.gained h ∧
    f.gained (f.set_lost false (f.set false h)) = f.gained h := by
  refine ⟨rfl, ?_, ?_, ?_, ?_, ?_, ?_⟩ <;>
    simp [FocusFlag.clear_eq, FocusFlag.get, FocusFlag.lost,
      FocusFlag.gained, FocusFlag.set, FocusFlag.set_lost,
      Heap.core_write, Heap.write_write]

end RatFocus
